import Mathlib

/-!
Verification development for the tensor-storage manager of
`src/src/math/ndarray_manager.ts`: the `NDArrayManager` registry with its
monotonic identifier allocation, the `NDArrayDataStorage` backend contract,
and the `WebGLStorage` GPU-texture backend with its value normalization
(`typedArrayToFloat32`).

Modelling conventions:
- TypeScript exceptions become `Except Err`; a thrown error carries its kind.
- Mutable object fields become explicit state threading
  (`ManagerState`, `WebGLState`).
- The external WebGL collaborators (shape resolver, texture pool, matrix
  upload) become an environment of pure functions plus an event trace, so
  that "consulted exactly once" and "wrote these values" are observable.
- 32-bit float elements are modelled by `F32` (the canonical not-a-number
  value, or a finite numeric value); the integral buffers `Int32Array` /
  `Uint8Array` carry `Int` elements.
-/

namespace NDArrayManagerModel

/-- The closed element-type enumeration of `DataTypes` in the source:
`float32`, `int32`, `bool`. -/
inductive DType where
  | float32
  | int32
  | bool
deriving DecidableEq, Repr

/-- A 32-bit floating element as it matters at this layer: either the
canonical not-a-number value, or a finite numeric value (the values this
layer handles come from integral typed arrays or pass through untouched). -/
inductive F32 where
  | nan
  | val (x : Int)
deriving DecidableEq, Repr

/-- A `TypedArray` as dispatched by the source (`a instanceof Float32Array`
versus the integral arrays `Int32Array` / `Uint8Array`). -/
inductive TypedArray where
  | f32 (data : List F32)
  | i32 (data : List Int)
  | u8 (data : List Int)
deriving DecidableEq, Repr

/-- Modelled from the spec: `util.NAN_INT32`, the designated invalid /
not-a-number marker for `int32` data (`util.ts` is not part of the provided
sources). -/
def NAN_INT32 : Int := -(2 ^ 31)

/-- Modelled from the spec: `util.NAN_BOOL`, the designated invalid /
not-a-number marker for `bool` data (`util.ts` is not part of the provided
sources). -/
def NAN_BOOL : Int := 255

/-- Modelled from the spec: `util.isValNaN(val, dtype)` — whether `val` is
the designated invalid / not-a-number marker for `dtype` ("if it is a
designated invalid/not-a-number marker for `dtype`, write the canonical
not-a-number floating value").  A finite numeric value is never the marker
for `float32`. -/
def isValNaN (v : Int) (dtype : DType) : Bool :=
  match dtype with
  | .float32 => false
  | .int32 => v = NAN_INT32
  | .bool => v = NAN_BOOL

/-- Embedding of `typedArrayToFloat32` from the source: a `Float32Array` is returned
unchanged; otherwise a fresh 32-bit float buffer of the same length is
built, mapping each designated invalid marker to the canonical not-a-number
value and every other element verbatim. -/
def typedArrayToFloat32 (a : TypedArray) (dtype : DType) : List F32 :=
  match a with
  | .f32 data => data
  | .i32 data => data.map (fun v => if isValNaN v dtype then F32.nan else F32.val v)
  | .u8 data => data.map (fun v => if isValNaN v dtype then F32.nan else F32.val v)

/-- The error taxonomy of the spec (§7).  The source only ever constructs
the `Method not implemented.` error, modelled as `notImplemented`; the
remaining kinds exist so that distinguishability is expressible. -/
inductive Err where
  | notImplemented
  | invalidShape
  | unknownIdentifier
  | doubleDispose
  | backendDisposed
  | poolExhausted
deriving DecidableEq, Repr

/-- Embedding of `TextureType` of the WebGL backend; the source uses only `DEFAULT`. -/
inductive TextureType where
  | DEFAULT
deriving DecidableEq, Repr

/-- A physical 2-D texture shape `[rows, columns]`. -/
structure TexShape where
  rows : Nat
  cols : Nat
deriving DecidableEq, Repr

/-- The `WebGLData` storage record of the source: acquired texture handle,
physical texture shape and texture type. -/
structure WebGLData where
  texture : Nat
  texShape : TexShape
  type : TextureType
deriving DecidableEq, Repr

/-- The external collaborators of the WebGL backend (§6): the shape
resolver `webgl_util.getTextureShapeFromLogicalShape(GPGPU.gl, ·)` and the
texture pool `TEXTURE_MANAGER.acquireTexture`, as pure functions.  Texture
handles are modelled by naturals. -/
structure WebGLEnv where
  resolveShape : List Int → TexShape
  acquireTexture : TexShape → Nat

/-- Observable calls made by the WebGL backend to its external
collaborators, in order. -/
inductive Event where
  | resolve (shape : List Int) (texShape : TexShape)
  | acquire (texShape : TexShape) (texture : Nat)
  | write (texture : Nat) (rows cols : Nat) (values : List F32)
deriving DecidableEq, Repr

/-- The mutable state of one `WebGLStorage` instance: its `db` table from
identifiers to storage records. -/
structure WebGLState where
  db : List (Nat × WebGLData)
deriving DecidableEq, Repr

namespace WebGLStorage

/-- Embedding of `WebGLStorage.throwIfDisposed` from the source: its body is
`throw new Error('Method not implemented.')`, so it fails unconditionally. -/
def throwIfDisposed : Except Err Unit := .error .notImplemented

/-- Embedding of `WebGLStorage.allocate` from the source: first `throwIfDisposed()`,
then resolve the physical texture shape, acquire a texture of that shape,
record the `WebGLData` under `id` and return it.  The result carries the
possibly-thrown error, the post state, and the trace of external calls. -/
def allocate (env : WebGLEnv) (st : WebGLState) (id : Nat) (shape : List Int)
    (dtype : DType) : Except Err WebGLData × WebGLState × List Event :=
  match throwIfDisposed with
  | .error e => (.error e, st, [])
  | .ok _ =>
    let texShape := env.resolveShape shape
    let texture := env.acquireTexture texShape
    let webGLData : WebGLData := ⟨texture, texShape, TextureType.DEFAULT⟩
    (.ok webGLData, ⟨(id, webGLData) :: st.db⟩,
      [Event.resolve shape texShape, Event.acquire texShape texture])
  -- dtype is ignored by the source's allocate body as well


/-- Embedding of `WebGLStorage.upload` from the source: perform `allocate`, then write
`typedArrayToFloat32(values, dtype)` into the acquired texture using the
physical `texShape` of the record, and return the same record. -/
def upload (env : WebGLEnv) (st : WebGLState) (id : Nat) (shape : List Int)
    (dtype : DType) (values : TypedArray) :
    Except Err WebGLData × WebGLState × List Event :=
  match allocate env st id shape dtype with
  | (.error e, st', tr) => (.error e, st', tr)
  | (.ok webGLData, st', tr) =>
    (.ok webGLData, st',
      tr ++ [Event.write webGLData.texture webGLData.texShape.rows
        webGLData.texShape.cols (typedArrayToFloat32 values dtype)])

/-- Embedding of `WebGLStorage.download` from the source: `throwIfDisposed()` followed by
an unconditional `Method not implemented.` throw. -/
def download (st : WebGLState) (id : Nat) :
    Except Err (List F32) × WebGLState × List Event :=
  match throwIfDisposed with
  | .error e => (.error e, st, [])
  | .ok _ => (.error .notImplemented, st, [])

/-- Embedding of `WebGLStorage.dispose` from the source: `throwIfDisposed()` followed by
an unconditional `Method not implemented.` throw. -/
def dispose (st : WebGLState) (id : Nat) :
    Except Err Unit × WebGLState × List Event :=
  match throwIfDisposed with
  | .error e => (.error e, st, [])
  | .ok _ => (.error .notImplemented, st, [])

end WebGLStorage

/-- The `NDArrayData` logical descriptor of the source: identifier, element
type and logical shape. -/
structure NDArrayData where
  id : Nat
  dtype : DType
  shape : List Int
deriving DecidableEq, Repr

/-- The `NDArrayDataStorage` capability the manager actually invokes (the
manager's only backend call is `upload`), polymorphic over the backend's
own state. -/
structure Storage (σ : Type) where
  upload : σ → Nat → List Int → DType → TypedArray → Except Err Unit × σ

/-- The mutable state of one `NDArrayManager`: the `nextId` counter
(initialized to 1), the tracking log appended to by `track`, and the
backend's state. -/
structure ManagerState (σ : Type) where
  nextId : Nat
  tracked : List NDArrayData
  storage : σ
deriving DecidableEq, Repr

/-- A fresh `NDArrayManager` over backend state `s`: `nextId = 1`, nothing
tracked. -/
def initState {σ : Type} (s : σ) : ManagerState σ := ⟨1, [], s⟩

/-- Embedding of `NDArrayManager.makeNDArrayData` from the source: take `id = nextId++`,
build the descriptor; if values are supplied, call the backend's `upload`
(a thrown error propagates, with `nextId` already incremented and the
descriptor not tracked); then `track` the descriptor and return it. -/
def makeNDArrayData {σ : Type} (S : Storage σ) (st : ManagerState σ)
    (shape : List Int) (dtype : DType) (values : Option TypedArray) :
    Except Err NDArrayData × ManagerState σ :=
  let data : NDArrayData := ⟨st.nextId, dtype, shape⟩
  match values with
  | none => (.ok data, ⟨st.nextId + 1, st.tracked ++ [data], st.storage⟩)
  | some vs =>
    match S.upload st.storage st.nextId shape dtype vs with
    | (.error e, s2) => (.error e, ⟨st.nextId + 1, st.tracked, s2⟩)
    | (.ok _, s2) => (.ok data, ⟨st.nextId + 1, st.tracked ++ [data], s2⟩)

/-- One `makeNDArrayData` request: shape, dtype, optional values. -/
structure Call where
  shape : List Int
  dtype : DType
  values : Option TypedArray
deriving DecidableEq, Repr

/-- Run a sequence of `makeNDArrayData` calls, collecting each call's
result (the returned descriptor, or the propagated error). -/
def runCalls {σ : Type} (S : Storage σ) (st : ManagerState σ) :
    List Call → List (Except Err NDArrayData) × ManagerState σ
  | [] => ([], st)
  | c :: cs =>
    let p := makeNDArrayData S st c.shape c.dtype c.values
    let q := runCalls S p.2 cs
    (p.1 :: q.1, q.2)

/-- The identifiers actually returned to callers: those of the successful
calls, in call order. -/
def returnedIds (rs : List (Except Err NDArrayData)) : List Nat :=
  rs.filterMap (fun r => match r with | .ok d => some d.id | .error _ => none)

/-- Whether a call's result was a returned descriptor (no error thrown). -/
def isOkResult (r : Except Err NDArrayData) : Bool :=
  match r with
  | .ok _ => true
  | .error _ => false

/-- The `WebGLStorage` backend plugged into the manager through the
`NDArrayDataStorage` interface, as in a real `new NDArrayManager(storage)`:
the manager observes only the success or the propagated error. -/
def webGLAsStorage (env : WebGLEnv) : Storage WebGLState :=
  ⟨fun s id shape dtype values =>
    match WebGLStorage.upload env s id shape dtype values with
    | (.error e, s', _) => (.error e, s')
    | (.ok _, s', _) => (.ok (), s')⟩

/-- A concrete environment for evaluating the backend on closed inputs:
every logical shape resolves to a 1×1 texture, the pool hands out
handle 0. -/
def testEnv : WebGLEnv := ⟨fun _ => ⟨1, 1⟩, fun _ => 0⟩

/-- A concrete always-succeeding `NDArrayDataStorage` instance whose state
counts the `upload` calls it has received; used to instantiate
interface-parametric theorems on closed inputs. -/
def countingStorage : Storage Nat := ⟨fun n _ _ _ _ => (.ok (), n + 1)⟩


/-! ## Basic lemmas about the manager -/

/-- Every `makeNDArrayData` call advances `nextId` by exactly one, whether
the upload succeeds, fails, or is skipped. -/
theorem makeNDArrayData_nextId {σ : Type} (S : Storage σ) (st : ManagerState σ)
    (shape : List Int) (dtype : DType) (values : Option TypedArray) :
    (makeNDArrayData S st shape dtype values).2.nextId = st.nextId + 1 := by
  cases values with
  | none => rfl
  | some vs =>
    simp only [makeNDArrayData]
    rcases h : S.upload st.storage st.nextId shape dtype vs with ⟨r, s2⟩
    cases r <;> simp

/-- A returned descriptor carries the identifier read from `nextId` at the
start of the call. -/
theorem makeNDArrayData_ok_id {σ : Type} (S : Storage σ) (st : ManagerState σ)
    (shape : List Int) (dtype : DType) (values : Option TypedArray)
    (d : NDArrayData) (h : (makeNDArrayData S st shape dtype values).1 = .ok d) :
    d.id = st.nextId := by
  cases values with
  | none =>
    simp only [makeNDArrayData, Except.ok.injEq] at h
    subst h
    rfl
  | some vs =>
    simp only [makeNDArrayData] at h
    rcases hu : S.upload st.storage st.nextId shape dtype vs with ⟨r, s2⟩
    rw [hu] at h
    cases r with
    | error e => simp at h
    | ok u =>
      simp only [Except.ok.injEq] at h
      subst h
      rfl

/-- Running a sequence of calls advances `nextId` by the number of calls. -/
theorem runCalls_nextId {σ : Type} (S : Storage σ) (cs : List Call) :
    ∀ st : ManagerState σ, (runCalls S st cs).2.nextId = st.nextId + cs.length := by
  induction cs with
  | nil => intro st; rfl
  | cons c cs ih =>
    intro st
    simp only [runCalls, List.length_cons]
    rw [ih, makeNDArrayData_nextId]
    omega

/-- The identifiers returned over a call sequence form a sublist of the
consecutive range starting at the current `nextId`. -/
theorem returnedIds_sublist {σ : Type} (S : Storage σ) (cs : List Call) :
    ∀ st : ManagerState σ,
      (returnedIds (runCalls S st cs).1).Sublist
        (List.range' st.nextId cs.length) := by
  induction cs with
  | nil => intro st; simp [runCalls, returnedIds]
  | cons c cs ih =>
    intro st
    simp only [runCalls, List.length_cons, List.range'_succ]
    rcases hp : makeNDArrayData S st c.shape c.dtype c.values with ⟨r, st1⟩
    have hnext : st1.nextId = st.nextId + 1 := by
      have h := makeNDArrayData_nextId S st c.shape c.dtype c.values
      rw [hp] at h
      exact h
    have ih1 := ih st1
    rw [hnext] at ih1
    cases r with
    | error e =>
      simp only [returnedIds, List.filterMap_cons]
      exact List.Sublist.cons _ ih1
    | ok d =>
      have hid : d.id = st.nextId :=
        makeNDArrayData_ok_id S st c.shape c.dtype c.values d (by rw [hp])
      simp only [returnedIds, List.filterMap_cons, hid]
      exact List.Sublist.cons₂ _ ih1

/-- When every call in the sequence succeeds, the returned identifiers are
exactly the consecutive range starting at the current `nextId`. -/
theorem returnedIds_all_ok {σ : Type} (S : Storage σ) (cs : List Call) :
    ∀ st : ManagerState σ,
      (∀ r ∈ (runCalls S st cs).1, isOkResult r = true) →
      returnedIds (runCalls S st cs).1 = List.range' st.nextId cs.length := by
  induction cs with
  | nil => intro st _; rfl
  | cons c cs ih =>
    intro st hall
    simp only [runCalls, List.length_cons, List.range'_succ]
    rcases hp : makeNDArrayData S st c.shape c.dtype c.values with ⟨r, st1⟩
    have hnext : st1.nextId = st.nextId + 1 := by
      have h := makeNDArrayData_nextId S st c.shape c.dtype c.values
      rw [hp] at h
      exact h
    simp only [runCalls, hp] at hall
    have hhead := hall r (by simp)
    cases r with
    | error e => simp [isOkResult] at hhead
    | ok d =>
      have hid : d.id = st.nextId :=
        makeNDArrayData_ok_id S st c.shape c.dtype c.values d (by rw [hp])
      have ih1 := ih st1 (fun r hr => hall r (by simp [hr]))
      rw [hnext] at ih1
      simp only [returnedIds, List.filterMap_cons, hid]
      rw [← returnedIds, ih1]

/-! ## Claims -/

/-- C1: for every sequence of `createArray` (`makeNDArrayData`) calls on one
manager, the returned identifiers are drawn in order from the consecutive
range starting at 1, are strictly increasing with no repeats, every
returned identifier lies between 1 and the number of calls, the counter
ends at `1 + n` so no identifier is ever reassigned or reused (the manager
has no operation that decreases the counter, and disposal never touches
it), and when every call succeeds the identifiers are exactly 1, …, n. -/
theorem C1_identifiers_unique_monotonic {σ : Type} (s0 : σ) (S : Storage σ)
    (cs : List Call) :
    (returnedIds (runCalls S (initState s0) cs).1).Sublist
      (List.range' 1 cs.length) ∧
    List.Pairwise (· < ·) (returnedIds (runCalls S (initState s0) cs).1) ∧
    (returnedIds (runCalls S (initState s0) cs).1).Nodup ∧
    (∀ i ∈ returnedIds (runCalls S (initState s0) cs).1,
      1 ≤ i ∧ i ≤ cs.length) ∧
    (runCalls S (initState s0) cs).2.nextId = 1 + cs.length ∧
    ((∀ r ∈ (runCalls S (initState s0) cs).1, isOkResult r = true) →
      returnedIds (runCalls S (initState s0) cs).1 = List.range' 1 cs.length) := by
  have hsub : (returnedIds (runCalls S (initState s0) cs).1).Sublist
      (List.range' 1 cs.length) := returnedIds_sublist S cs (initState s0)
  have hpair : List.Pairwise (· < ·)
      (returnedIds (runCalls S (initState s0) cs).1) :=
    List.Pairwise.sublist hsub (List.pairwise_lt_range' 1 cs.length)
  refine ⟨hsub, hpair, hpair.imp Nat.ne_of_lt, ?_, ?_, ?_⟩
  · intro i hi
    have hm := hsub.subset hi
    rw [List.mem_range'_1] at hm
    omega
  · exact runCalls_nextId S cs (initState s0)
  · intro hall
    exact returnedIds_all_ok S cs (initState s0) hall

/-- Witness for C1: a concrete two-call sequence through the counting
backend; both calls succeed and the returned identifiers are exactly
`[1, 2]`. -/
theorem C1_identifiers_unique_monotonic_witness :
    (∀ r ∈ (runCalls countingStorage (initState 0)
        [⟨[2], DType.float32, none⟩, ⟨[3], DType.int32, none⟩]).1,
      isOkResult r = true) ∧
    returnedIds (runCalls countingStorage (initState 0)
        [⟨[2], DType.float32, none⟩, ⟨[3], DType.int32, none⟩]).1 =
      List.range' 1 2 :=
  ⟨by decide, (C1_identifiers_unique_monotonic 0 countingStorage
      [⟨[2], DType.float32, none⟩, ⟨[3], DType.int32, none⟩]).2.2.2.2.2
    (by decide)⟩

/-- C3: the normalization used by `upload` returns a 32-bit float buffer
input unchanged (the very same buffer); for an integral input it produces a
buffer of the same length in which every element holding the designated
invalid marker of the dtype becomes the canonical not-a-number value and
every other element is written verbatim. -/
theorem C3_normalization_pass_through_and_nan (dtype : DType) :
    (∀ d : List F32, typedArrayToFloat32 (.f32 d) dtype = d) ∧
    (∀ d : List Int, (typedArrayToFloat32 (.i32 d) dtype).length = d.length) ∧
    (∀ (d : List Int) (i : Nat), (typedArrayToFloat32 (.i32 d) dtype)[i]? =
      d[i]?.map (fun v => if isValNaN v dtype then F32.nan else F32.val v)) ∧
    (∀ d : List Int, (typedArrayToFloat32 (.u8 d) dtype).length = d.length) ∧
    (∀ (d : List Int) (i : Nat), (typedArrayToFloat32 (.u8 d) dtype)[i]? =
      d[i]?.map (fun v => if isValNaN v dtype then F32.nan else F32.val v)) := by
  refine ⟨fun d => rfl, fun d => ?_, fun d i => ?_, fun d => ?_, fun d i => ?_⟩ <;>
    simp [typedArrayToFloat32]

/-- C6: in the WebGL backend, `download` and `dispose` fail for every
identifier and every backend state with the `notImplemented` error, leaving
the state unchanged and making no external call; this error kind is
distinct from each regular contract-violation error kind. -/
theorem C6_download_dispose_unimplemented :
    (∀ (st : WebGLState) (id : Nat),
      WebGLStorage.download st id = (.error .notImplemented, st, []) ∧
      WebGLStorage.dispose st id = (.error .notImplemented, st, [])) ∧
    Err.notImplemented ≠ Err.invalidShape ∧
    Err.notImplemented ≠ Err.unknownIdentifier ∧
    Err.notImplemented ≠ Err.doubleDispose ∧
    Err.notImplemented ≠ Err.backendDisposed ∧
    Err.notImplemented ≠ Err.poolExhausted :=
  ⟨fun st id => ⟨rfl, rfl⟩, by decide, by decide, by decide, by decide, by decide⟩

/-- C9: every `WebGLStorage` operation throws the `notImplemented` error
for every environment, state and input, because `throwIfDisposed` — which
each operation runs first — itself always throws; in particular no upload
through `WebGLStorage` ever succeeds, no state is recorded, and no external
collaborator is ever called. -/
theorem C9_webgl_always_throws (env : WebGLEnv) (st : WebGLState) (id : Nat)
    (shape : List Int) (dtype : DType) (values : TypedArray) :
    WebGLStorage.throwIfDisposed = .error .notImplemented ∧
    WebGLStorage.allocate env st id shape dtype =
      (.error .notImplemented, st, []) ∧
    WebGLStorage.upload env st id shape dtype values =
      (.error .notImplemented, st, []) ∧
    WebGLStorage.download st id = (.error .notImplemented, st, []) ∧
    WebGLStorage.dispose st id = (.error .notImplemented, st, []) :=
  ⟨rfl, rfl, rfl, rfl, rfl⟩

/-- C2 (code-bug evidence): evaluating `upload` at the failing input: on a
fresh backend, `upload(1, [2,3], float32, [1,2,3,4,5,6])` throws the
`Method not implemented.` error out of `throwIfDisposed` inside `allocate`
— post state unchanged, no shape resolved, no texture acquired, nothing
written — instead of allocating and then writing the normalized values. -/
theorem C2_upload_throws_before_writing :
    WebGLStorage.upload testEnv ⟨[]⟩ 1 [2, 3] DType.float32
      (TypedArray.f32 [F32.val 1, F32.val 2, F32.val 3,
        F32.val 4, F32.val 5, F32.val 6]) =
      (.error .notImplemented, ⟨[]⟩, []) := rfl

/-- C7 (code-bug evidence): evaluating `allocate` at the failing input: on
a fresh backend that was never torn down, `allocate(1, [2,3], float32)`
throws the `Method not implemented.` error from `throwIfDisposed` — the
shape resolver is consulted zero times (empty trace), no texture is
acquired, and nothing is recorded against the identifier. -/
theorem C7_allocate_throws_before_resolving :
    WebGLStorage.allocate testEnv ⟨[]⟩ 1 [2, 3] DType.float32 =
      (.error .notImplemented, ⟨[]⟩, []) := rfl

/-- C4 (counterexample): `makeNDArrayData` does not validate its
arguments: with shape `[-1]` it succeeds and returns a descriptor (no
`InvalidShape` failure), and with shape `[2,2]` and three values it fails
with the backend's `notImplemented` error, not with `InvalidShape`. -/
theorem C4_validation_counterexample :
    (makeNDArrayData (webGLAsStorage testEnv) (initState ⟨[]⟩)
      [-1] DType.float32 none).1 = .ok ⟨1, DType.float32, [-1]⟩ ∧
    (makeNDArrayData (webGLAsStorage testEnv) (initState ⟨[]⟩)
      [2, 2] DType.float32
      (some (TypedArray.f32 [F32.val 1, F32.val 2, F32.val 3]))).1 =
      .error Err.notImplemented :=
  ⟨rfl, rfl⟩

/-- C4 (amended): `createArray` performs no argument validation: a call
with a negative dimension and no values succeeds for every backend,
returning a descriptor with the given shape and the fresh identifier; a
call whose value count does not match the shape is passed unvalidated to
the backend upload and never raises `InvalidShape` (through the actual
`WebGLStorage` backend it surfaces that backend's `notImplemented`
error). -/
theorem C4_no_validation {σ : Type} (S : Storage σ) (st : ManagerState σ)
    (dtype : DType) (env : WebGLEnv) (st2 : ManagerState WebGLState)
    (vs : TypedArray) :
    (makeNDArrayData S st [-1] dtype none).1 = .ok ⟨st.nextId, dtype, [-1]⟩ ∧
    (makeNDArrayData (webGLAsStorage env) st2 [2, 2] dtype (some vs)).1 =
      .error Err.notImplemented :=
  ⟨rfl, rfl⟩

/-- C5: when the backend upload fails during `makeNDArrayData`, the same
error is propagated to the caller, the only manager-state change is that
the identifier is consumed (`nextId` advances, the tracking log is
untouched, the backend state is as the failing upload left it), and every
identifier returned by any later call sequence is strictly greater than the
failed identifier — it is never returned again. -/
theorem C5_failed_upload_consumes_identifier {σ : Type} (S : Storage σ)
    (st : ManagerState σ) (shape : List Int) (dtype : DType) (vs : TypedArray)
    (e : Err) (s2 : σ)
    (h : S.upload st.storage st.nextId shape dtype vs = (.error e, s2)) :
    (makeNDArrayData S st shape dtype (some vs)).1 = .error e ∧
    (makeNDArrayData S st shape dtype (some vs)).2 =
      ⟨st.nextId + 1, st.tracked, s2⟩ ∧
    ∀ cs : List Call,
      ∀ i ∈ returnedIds
        (runCalls S (makeNDArrayData S st shape dtype (some vs)).2 cs).1,
      st.nextId < i := by
  have hmk : makeNDArrayData S st shape dtype (some vs) =
      (.error e, ⟨st.nextId + 1, st.tracked, s2⟩) := by
    simp [makeNDArrayData, h]
  refine ⟨by rw [hmk], by rw [hmk], ?_⟩
  intro cs i hi
  rw [hmk] at hi
  have hsub := returnedIds_sublist S cs
    (⟨st.nextId + 1, st.tracked, s2⟩ : ManagerState σ)
  have hm := List.mem_range'_1.mp (hsub.subset hi)
  exact Nat.lt_of_lt_of_le (Nat.lt_succ_self st.nextId) hm.1

/-- Witness for C5: through the actual `WebGLStorage` backend, whose upload
fails, the error is propagated by `makeNDArrayData`. -/
theorem C5_failed_upload_consumes_identifier_witness :
    (webGLAsStorage testEnv).upload
        (initState (⟨[]⟩ : WebGLState)).storage
        (initState (⟨[]⟩ : WebGLState)).nextId [2] DType.float32
        (TypedArray.f32 [F32.val 7]) =
      (.error Err.notImplemented, ⟨[]⟩) ∧
    (makeNDArrayData (webGLAsStorage testEnv) (initState ⟨[]⟩)
        [2] DType.float32 (some (TypedArray.f32 [F32.val 7]))).1 =
      .error Err.notImplemented :=
  ⟨rfl, (C5_failed_upload_consumes_identifier (webGLAsStorage testEnv)
      (initState ⟨[]⟩) [2] DType.float32 (TypedArray.f32 [F32.val 7])
      Err.notImplemented ⟨[]⟩ rfl).1⟩

/-- C8: a `makeNDArrayData` call without values touches no backend at all —
the result and the untouched backend state are the same for every backend
`S`, and a counting backend records zero upload calls — while the call
still returns a descriptor with the given shape, dtype and the fresh
identifier, and tracks it. -/
theorem C8_no_values_skips_backend {σ : Type} (S : Storage σ)
    (st : ManagerState σ) (shape : List Int) (dtype : DType) :
    makeNDArrayData S st shape dtype none =
      (.ok ⟨st.nextId, dtype, shape⟩,
        ⟨st.nextId + 1, st.tracked ++ [⟨st.nextId, dtype, shape⟩],
          st.storage⟩) ∧
    ∀ (n : Nat) (tr : List NDArrayData) (i : Nat),
      (makeNDArrayData countingStorage ⟨i, tr, n⟩ shape dtype none).2.storage
        = n :=
  ⟨rfl, fun n tr i => rfl⟩

/-- C10: the tracking log after a `makeNDArrayData` call with values is the
old log when the backend upload fails, and the old log with the new
descriptor appended exactly once when it succeeds — the descriptor is
tracked only after a successful upload. -/
theorem C10_tracked_only_after_successful_upload {σ : Type} (S : Storage σ)
    (st : ManagerState σ) (shape : List Int) (dtype : DType)
    (vs : TypedArray) :
    (makeNDArrayData S st shape dtype (some vs)).2.tracked =
      match (S.upload st.storage st.nextId shape dtype vs).1 with
      | .error _ => st.tracked
      | .ok _ => st.tracked ++ [⟨st.nextId, dtype, shape⟩] := by
  rcases h : S.upload st.storage st.nextId shape dtype vs with ⟨r, s2⟩
  cases r <;> simp [makeNDArrayData, h]

end NDArrayManagerModel
